import Mathlib

/-!
Verification of the nshmp-haz example-script client contract.

The repository holds two short Python example scripts:

* `etc/python/gmmBatchExample.py` — reads a CSV file of GMM inputs, POSTs it
  to the `/nshmp-haz-ws/gmm/spectra` web service with the GMMs as a repeated
  `gmm` query parameter, checks the response status, and walks the returned
  JSON structure to bind the means and sigmas series.
* `etc/python/gmmExample.py` — calls the in-process `HazMat` bridge for a
  single ground-motion value and for a deterministic response spectrum.

This file shallowly embeds those scripts.  JSON values decoded by
`requests.post(...).json()` are modelled by `JVal`; Python dict subscripting,
exceptions (`KeyError`, `TypeError`) and the script's deliberate `exit()` are
modelled by the `Except` monad over `ScriptExit`.  Behaviour of external
collaborators (the web service, the `requests` query encoding, the `HazMat`
native library) that is not under the repository's source tree is modelled
from the spec; each such definition carries a doc comment starting
`Modelled from the spec:`.
-/

/-- A decoded JSON value, as produced by `requests.post(...).json()`.
Numbers are modelled as rationals. -/
inductive JVal where
  | str (s : String)
  | num (q : ℚ)
  | arr (xs : List JVal)
  | obj (fields : List (String × JVal))
deriving Repr

/-- How the batch script's data-retrieval section can terminate abnormally.
`responseShapeError` is the script's deliberate `exit()` on the status guard —
the surfaced service-level failure; `keyError`/`typeError` are the untyped
Python exceptions raised by subscripting a missing key or a wrongly-typed
value. -/
inductive ScriptExit where
  | responseShapeError
  | keyError (k : String)
  | typeError
deriving Repr, DecidableEq

/-- Python `d[k]` on a decoded JSON value: on an object, association lookup
(`KeyError` when absent); on any other value a string subscript is a
`TypeError`. -/
def jget (v : JVal) (k : String) : Except ScriptExit JVal :=
  match v with
  | .obj fields =>
      match fields.lookup k with
      | some x => .ok x
      | none => .error (.keyError k)
  | _ => .error (.typeError)

/-- Python `for x in v`: iterating a decoded JSON array yields its elements;
iterating any other shape is modelled as a `TypeError` (the script would fail
on the very next subscript in every such case). -/
def jarr (v : JVal) : Except ScriptExit (List JVal) :=
  match v with
  | .arr xs => .ok xs
  | _ => .error (.typeError)

/-- `svcResponse['status'] == 'error'` — the script compares the status
value against the string literal `'error'`. -/
def isErrorTag (v : JVal) : Bool :=
  match v with
  | .str s => s == "error"
  | _ => false

/-- Python `~b` applied to a `bool`: the bitwise complement of `False`/`True`
as the integers `0`/`1`, i.e. `-1`/`-2`. -/
def pyBitNotBool (b : Bool) : ℤ :=
  -(if b then (1 : ℤ) else 0) - 1

/-- Python truthiness of an integer: nonzero is truthy. -/
def pyTruthyInt (i : ℤ) : Bool :=
  decide (i ≠ 0)

/-- `hasattr(svcResponse, 'response')` where `svcResponse` is the dict decoded
from JSON: dict keys are not attributes, so this is `False` for every key the
script asks about. -/
def jHasattr (_ : JVal) (_ : String) : Bool :=
  false

/-- The guard of `gmmBatchExample.py` line 61:
`svcResponse['status'] == 'error' and ~hasattr(svcResponse, 'response')`,
parameterised by the two sub-results. -/
def guardCond (statusIsError : Bool) (hasattrResult : Bool) : Bool :=
  statusIsError && pyTruthyInt (pyBitNotBool hasattrResult)

/-- One `(xs, ys)` series binding: the body of the script's inner loops
`data = means['data']; xMeans = data['xs']; yMeans = data['ys']`. -/
def seriesOf (m : JVal) : Except ScriptExit (JVal × JVal) := do
  let data ← jget m "data"
  let xs ← jget data "xs"
  let ys ← jget data "ys"
  pure (xs, ys)

/-- The script's inner loops `for means in response['means']['data']: ...`
rebind `xMeans`/`yMeans` on every iteration, so after the loop only the last
series' arrays remain bound; `acc` is the current binding (`none` when the
loop has not yet run). -/
def lastSeries (acc : Option (JVal × JVal)) : List JVal → Except ScriptExit (Option (JVal × JVal))
  | [] => .ok acc
  | m :: ms => do
      let p ← seriesOf m
      lastSeries (some p) ms

/-- What one iteration of the script's outer loop over
`svcResponse['response']` leaves bound: the echoed request parts and the
last-retained means and sigmas series. -/
structure RowExtract where
  gmms : JVal
  input : JVal
  meansLast : Option (JVal × JVal)
  sigmasLast : Option (JVal × JVal)
deriving Repr

/-- The body of the outer loop of `gmmBatchExample.py` (lines 69–90):
`request = response['request']; gmms = request['gmms']; input = request['input']`
followed by the means loop and the sigmas loop. -/
def extractRow (response : JVal) : Except ScriptExit RowExtract := do
  let request ← jget response "request"
  let gmms ← jget request "gmms"
  let inp ← jget request "input"
  let meansObj ← jget response "means"
  let meansData ← jarr (← jget meansObj "data")
  let meansLast ← lastSeries none meansData
  let sigmasObj ← jget response "sigmas"
  let sigmasData ← jarr (← jget sigmasObj "data")
  let sigmasLast ← lastSeries none sigmasData
  pure ⟨gmms, inp, meansLast, sigmasLast⟩

/-- The outer loop `for response in svcResponse['response']`, collecting the
per-row bindings in iteration order. -/
def forRows : List JVal → Except ScriptExit (List RowExtract)
  | [] => .ok []
  | r :: rs => do
      let x ← extractRow r
      let xs ← forRows rs
      pure (x :: xs)

/-- The data-retrieval section of `gmmBatchExample.py` (lines 61–90): the
status guard (whose `exit()` surfaces the service-level failure,
`responseShapeError`), then the walk over `svcResponse['response']`. -/
def extractSeries (svc : JVal) : Except ScriptExit (List RowExtract) := do
  let status ← jget svc "status"
  if guardCond (isErrorTag status) (jHasattr svc "response") then
    .error (.responseShapeError)
  else do
    let rows ← jarr (← jget svc "response")
    forRows rows

/-- Tabular input handling of `gmmBatchExample.py` lines 22–26: the script
opens `gmm-inputs.csv` and binds `inputs = file.read()` — the raw contents,
with no parsing and no column-count validation. -/
def loadInputs (source : String) : String :=
  source

/-- Split a character sequence on a separator (empty trailing field kept, as
in CSV). -/
def splitCells (sep : Char) : List Char → List (List Char)
  | [] => [[]]
  | c :: cs =>
      let rest := splitCells sep cs
      if c = sep then [] :: rest
      else
        match rest with
        | [] => [[c]]
        | r :: rs => (c :: r) :: rs

/-- Column count of one CSV record: the number of comma-separated fields. -/
def csvCols (line : List Char) : Nat :=
  (splitCells ',' line).length

/-- Claim-side predicate, following the claim's words: some value row of the
tabular source has a column count inconsistent with the header row. -/
def inconsistentCols (source : String) : Bool :=
  match splitCells '\x0a' source.data with
  | [] => false
  | header :: rows => rows.any (fun r => csvCols r != csvCols header)

/-- `host` of `gmmBatchExample.py` line 37. -/
def host : String := "http://localhost:8080"

/-- `service` of `gmmBatchExample.py` line 39. -/
def service : String := "/nshmp-haz-ws/gmm/spectra"

/-- `url = host + service`, line 41. -/
def url : String := host ++ service

/-- The `query` dict of line 43: the GMM identifiers for the query string. -/
def gmmQuery : List String := ["AB_06_PRIME", "CAMPBELL_03", "FRANKEL_96"]

/-- Modelled from the spec: the HTTP library (an external collaborator, not
part of this repository) encodes a list-valued query parameter as one
`key=value` pair per element — "repeated parameter for multiple models". -/
def encodeRepeatedParam (k : String) (vs : List String) : List (String × String) :=
  vs.map (fun v => (k, v))

/-- Request assembly of `gmmBatchExample.py` lines 43–51: the body is the raw
`inputs` string, passed as-is (`data = inputs`); the query carries the model
identifiers (`params = query`). -/
def buildRequest (inputs : String) (models : List String) :
    String × List (String × String) :=
  (inputs, encodeRepeatedParam "gmm" models)

/-- Outbound effects of the batch script. -/
inductive Event where
  | readFile (name : String)
  | post (target : String) (body : String) (query : List (String × String))
deriving Repr, DecidableEq

/-- Number of outbound POST calls in a trace. -/
def postCount (evs : List Event) : Nat :=
  (evs.filter (fun e => match e with | .post .. => true | _ => false)).length

/-- The single `requests.post(url, data = inputs, params = query)` call of
`gmmBatchExample.py` line 51, as the outbound event it emits. -/
def submit (inputs : String) (models : List String) : Event :=
  .post url (buildRequest inputs models).1 (buildRequest inputs models).2

/-- The batch script end to end, as a trace of outbound effects plus the
outcome of its data-retrieval section; `svc` is the decoded JSON the network
returns for the script's single POST. -/
def runBatchScript (fileContents : String) (svc : JVal) :
    List Event × Except ScriptExit (List RowExtract) :=
  let inputs := loadInputs fileContents
  ([Event.readFile "gmm-inputs.csv", submit inputs gmmQuery], extractSeries svc)

/-- A GMM input parameter value: a number, or the `null` sentinel meaning
"use the service default" (`gmmBatchExample.py` header comment). -/
inductive ParamValue where
  | num (v : ℚ)
  | sentinel
deriving Repr, DecidableEq

/-- One scenario row: parameter name to value. -/
structure InputRow where
  params : List (String × ParamValue)
deriving Repr, DecidableEq

/-- Ordered rows of the tabular input; insertion order determines output
order. -/
abbrev InputTable := List InputRow

/-- JSON form of a parameter value as it appears in the echoed request. -/
def ParamValue.toJson : ParamValue → JVal
  | .num v => .num v
  | .sentinel => .str "null"

/-- JSON form of one input row as it appears in the echoed `request.input`. -/
def rowToJson (r : InputRow) : JVal :=
  .obj (r.params.map (fun p => (p.1, p.2.toJson)))

/-- Modelled from the spec: the schematic strictly ascending period grid of
the service's spectra (the spec fixes only the shape — period-ascending,
parallel arrays — not the numeric values). -/
def modelPeriods : List ℚ := [1/10, 1/2, 1, 2]

/-- Modelled from the spec: schematic mean values for one row, one per
period. -/
def modelMeans (r : InputRow) : List ℚ :=
  modelPeriods.map (fun t => t + r.params.length)

/-- Modelled from the spec: schematic sigma values for one row, one per
period. -/
def modelSigmas (_ : InputRow) : List ℚ :=
  modelPeriods.map (fun t => t + 1/2)

/-- Modelled from the spec: one series of a means/sigmas section — a nested
`data` object holding paired `xs`/`ys` numeric arrays. -/
def modelSeriesElem (ys : List ℚ) : JVal :=
  .obj [("data", .obj [("xs", .arr (modelPeriods.map JVal.num)),
                       ("ys", .arr (ys.map JVal.num))])]

/-- Modelled from the spec: a means or sigmas section — an object whose
`data` field is the array of series. -/
def modelSection (ys : List ℚ) : JVal :=
  .obj [("data", .arr [modelSeriesElem ys])]

/-- Modelled from the spec: the per-row element of a successful service
response — the echo of the request (GMMs and the input used) plus the means
and sigmas sections. -/
def mkRowResponse (gmms : List String) (r : InputRow) : JVal :=
  .obj [("request", .obj [("gmms", .arr (gmms.map JVal.str)),
                          ("input", rowToJson r)]),
        ("means", modelSection (modelMeans r)),
        ("sigmas", modelSection (modelSigmas r))]

/-- Modelled from the spec: a successful ServiceResponse — status tag
`success` and one per-row result per submitted InputRow, in the same
order. -/
def serviceRespond (gmms : List String) (table : InputTable) : JVal :=
  .obj [("status", .str "success"),
        ("response", .arr (table.map (mkRowResponse gmms)))]

/-- The bindings the script's extraction is left with for one row of the
modelled successful response. -/
def rowExtractOf (gmms : List String) (r : InputRow) : RowExtract :=
  { gmms := .arr (gmms.map JVal.str)
  , input := rowToJson r
  , meansLast := some (.arr (modelPeriods.map JVal.num), .arr ((modelMeans r).map JVal.num))
  , sigmasLast := some (.arr (modelPeriods.map JVal.num), .arr ((modelSigmas r).map JVal.num)) }

/-- Strict ascent of a numeric sequence. -/
def strictlyAscending : List ℚ → Bool
  | [] => true
  | [_] => true
  | a :: b :: t => a < b && strictlyAscending (b :: t)

/-- The SpectrumResult invariant on one extracted row: both retained series
hold numeric arrays, periods (`xs`) and values (`ys`) have equal length, the
means and sigmas share one period grid, and the periods are strictly
ascending. -/
def spectrumInvariant (e : RowExtract) : Prop :=
  ∃ pm ym ps ys : List ℚ,
    e.meansLast = some (.arr (pm.map JVal.num), .arr (ym.map JVal.num)) ∧
    e.sigmasLast = some (.arr (ps.map JVal.num), .arr (ys.map JVal.num)) ∧
    pm.length = ym.length ∧ ps.length = ys.length ∧ pm = ps ∧
    strictlyAscending pm = true

/-- The GMM input parameter object of `gmmExample.py` lines 34–47; the two
basin-depth parameters are set to `np.nan` there, modelled as `none`. -/
structure GmmParams where
  Mw : ℚ
  rJB : ℚ
  rRup : ℚ
  rX : ℚ
  dip : ℚ
  width : ℚ
  zTop : ℚ
  zHyp : ℚ
  rake : ℚ
  vs30 : ℚ
  vsInf : Bool
  z2p5 : Option ℚ
  z1p0 : Option ℚ
deriving Repr, DecidableEq

/-- The concrete parameterisation built in `gmmExample.py`. -/
def exampleParams : GmmParams :=
  { Mw := 13/2, rJB := 5, rRup := 51/10, rX := 51/10, dip := 90, width := 10
  , zTop := 1, zHyp := 6, rake := 0, vs30 := 760, vsInf := true
  , z2p5 := none, z1p0 := none }

/-- The spectrum object of `gmmExample.py` lines 71–74: parallel arrays of
periods, means and sigmas. -/
structure Spectrum where
  periods : List ℚ
  means : List ℚ
  sigmas : List ℚ
deriving Repr, DecidableEq

/-- Modelled from the spec: `HazMat.gmmSpectrum` — the native-library
deterministic-spectrum calculation invoked by `gmmExample.py` line 71, whose
Java implementation is not under the example-script source tree — returns
parallel arrays of periods, means and sigmas, one mean and one sigma per
period, periods strictly ascending.  Numeric values are schematic; the spec
fixes only the shape. -/
def gmmSpectrum (gmm : String) (p : GmmParams) : Spectrum :=
  { periods := modelPeriods
  , means := modelPeriods.map (fun t => t + p.Mw)
  , sigmas := modelPeriods.map (fun t => t + (gmm.length : ℚ)) }

/-- A wire cell of the request body as the service sees it: a numeric
literal, or the reserved `null` token. -/
inductive Cell where
  | lit (v : ℚ)
  | nullTok
deriving Repr, DecidableEq

/-- Encoding one parameter value into the request body: numbers are written
literally, the sentinel as the reserved `null` token (`gmmBatchExample.py`
header comment: "If 'null' is supplied as a value ... the default values are
used"). -/
def encodeCell : ParamValue → Cell
  | .num v => .lit v
  | .sentinel => .nullTok

/-- Modelled from the spec: the service decodes one cell, resolving the
`null` sentinel to the documented default for that parameter. -/
def serviceResolve (defaults : String → ℚ) (name : String) : Cell → ℚ
  | .lit v => v
  | .nullTok => defaults name

/-- Modelled from the spec: the `request.input` echo — the service's decoding
of the encoded row, parameter by parameter, with sentinels resolved to
defaults. -/
def echoRow (defaults : String → ℚ) (r : InputRow) : List (String × ℚ) :=
  r.params.map (fun p => (p.1, serviceResolve defaults p.1 (encodeCell p.2)))

/-- Whether a decoded value has a `response` field holding an array — "a
usable per-row payload is present" in the claim's words. -/
def hasUsablePayload (svc : JVal) : Bool :=
  match jget svc "response" with
  | .ok (.arr _) => true
  | _ => false

/-- Whether one per-row result lacks its `means` or its `sigmas` section. -/
def rowLacksSection (r : JVal) : Bool :=
  match jget r "means", jget r "sigmas" with
  | .ok _, .ok _ => false
  | _, _ => true

/-- Whether some per-row result of the payload lacks a section. -/
def someRowLacksSection (svc : JVal) : Bool :=
  match jget svc "response" with
  | .ok (.arr rs) => rs.any rowLacksSection
  | _ => false

/-- Whether the decoded response's status tag is present and equals
`error`. -/
def statusIsError (svc : JVal) : Bool :=
  match jget svc "status" with
  | .ok st => isErrorTag st
  | .error _ => false

/-- Claim-side condition, following the claim's words: the status tag is
`error` with no usable per-row payload present, or some per-row result lacks
its `means` or `sigmas` section. -/
def claimedShapeFailCond (svc : JVal) : Bool :=
  (statusIsError svc && !hasUsablePayload svc) || someRowLacksSection svc

/-- A concrete input row (`dip` 45, `vs30` left to the service default). -/
def sampleRow : InputRow :=
  ⟨[("dip", .num 45), ("vs30", .sentinel)]⟩

/-- A concrete decoded response whose status tag is `error` while a usable
per-row payload with both sections is also present. -/
def svcErrWithPayload : JVal :=
  .obj [("status", .str "error"),
        ("response", .arr [mkRowResponse ["AB_06_PRIME"] sampleRow])]

/-- A row varying only `dip`, all other columns left to the sentinel. -/
def dipRow (d : ℚ) : InputRow :=
  ⟨[("dip", .num d), ("vs30", .sentinel)]⟩

/-- The spec's scenario table: three rows varying only `dip`. -/
def threeRowTable : InputTable :=
  [dipRow 0, dipRow 45, dipRow 90]

/-- A malformed tabular source: the value row has fewer columns than the
header. -/
def badCsv : String :=
  "dip,vs30\x0a0.0"

theorem except_bind_error {α β : Type} (e : ScriptExit) (f : α → Except ScriptExit β) :
    (Except.error e : Except ScriptExit α) >>= f = Except.error e := rfl

theorem except_bind_ok {α β : Type} (a : α) (f : α → Except ScriptExit β) :
    (Except.ok a : Except ScriptExit α) >>= f = f a := rfl

theorem except_pure_ne {α : Type} (a : α) (e : ScriptExit) :
    (pure a : Except ScriptExit α) ≠ .error e :=
  fun h => Except.noConfusion h

theorem except_bind_ne {α β : Type} {e : ScriptExit} (x : Except ScriptExit α)
    (f : α → Except ScriptExit β) (hx : x ≠ .error e) (hf : ∀ a, f a ≠ .error e) :
    x >>= f ≠ .error e := by
  cases x with
  | error e2 =>
      rw [except_bind_error]
      intro h
      injection h with he
      exact hx (he ▸ rfl)
  | ok a => rw [except_bind_ok]; exact hf a

theorem jget_ne_shape (v : JVal) (k : String) :
    jget v k ≠ .error (.responseShapeError) := by
  cases v with
  | obj fields => cases h : fields.lookup k <;> simp [jget, h]
  | str s => simp [jget]
  | num q => simp [jget]
  | arr xs => simp [jget]

theorem jarr_ne_shape (v : JVal) : jarr v ≠ .error (.responseShapeError) := by
  cases v <;> simp [jarr]

theorem seriesOf_ne_shape (m : JVal) : seriesOf m ≠ .error (.responseShapeError) := by
  unfold seriesOf
  refine except_bind_ne _ _ (jget_ne_shape m "data") (fun data => ?_)
  refine except_bind_ne _ _ (jget_ne_shape data "xs") (fun xs => ?_)
  refine except_bind_ne _ _ (jget_ne_shape data "ys") (fun ys => ?_)
  exact except_pure_ne _ _

theorem lastSeries_ne_shape (ms : List JVal) :
    ∀ acc, lastSeries acc ms ≠ .error (.responseShapeError) := by
  induction ms with
  | nil => intro acc; simp [lastSeries]
  | cons m t ih =>
      intro acc
      unfold lastSeries
      exact except_bind_ne _ _ (seriesOf_ne_shape m) (fun p => ih (some p))

theorem extractRow_ne_shape (response : JVal) :
    extractRow response ≠ .error (.responseShapeError) := by
  unfold extractRow
  refine except_bind_ne _ _ (jget_ne_shape _ _) (fun request => ?_)
  refine except_bind_ne _ _ (jget_ne_shape _ _) (fun gmms => ?_)
  refine except_bind_ne _ _ (jget_ne_shape _ _) (fun inp => ?_)
  refine except_bind_ne _ _ (jget_ne_shape _ _) (fun meansObj => ?_)
  refine except_bind_ne _ _ (jget_ne_shape _ _) (fun md => ?_)
  refine except_bind_ne _ _ (jarr_ne_shape _) (fun meansData => ?_)
  refine except_bind_ne _ _ (lastSeries_ne_shape _ _) (fun meansLast => ?_)
  refine except_bind_ne _ _ (jget_ne_shape _ _) (fun sigmasObj => ?_)
  refine except_bind_ne _ _ (jget_ne_shape _ _) (fun sd => ?_)
  refine except_bind_ne _ _ (jarr_ne_shape _) (fun sigmasData => ?_)
  refine except_bind_ne _ _ (lastSeries_ne_shape _ _) (fun sigmasLast => ?_)
  exact except_pure_ne _ _

theorem forRows_ne_shape (rows : List JVal) :
    forRows rows ≠ .error (.responseShapeError) := by
  induction rows with
  | nil => simp [forRows]
  | cons r rs ih =>
      unfold forRows
      refine except_bind_ne _ _ (extractRow_ne_shape r) (fun x => ?_)
      refine except_bind_ne _ _ ih (fun xs => ?_)
      exact except_pure_ne _ _

theorem guardCond_eq (s h : Bool) : guardCond s h = s := by
  cases s <;> cases h <;> rfl

theorem extractRow_mkRowResponse (gmms : List String) (r : InputRow) :
    extractRow (mkRowResponse gmms r) = .ok (rowExtractOf gmms r) := rfl

theorem forRows_map_model (gmms : List String) (table : InputTable) :
    forRows (table.map (mkRowResponse gmms)) = .ok (table.map (rowExtractOf gmms)) := by
  induction table with
  | nil => rfl
  | cons r t ih =>
      show forRows (mkRowResponse gmms r :: t.map (mkRowResponse gmms)) = _
      unfold forRows
      rw [extractRow_mkRowResponse, except_bind_ok, ih, except_bind_ok]
      rfl

theorem extractSeries_serviceRespond (gmms : List String) (table : InputTable) :
    extractSeries (serviceRespond gmms table) = .ok (table.map (rowExtractOf gmms)) := by
  have h : extractSeries (serviceRespond gmms table)
      = forRows (table.map (mkRowResponse gmms)) := rfl
  rw [h, forRows_map_model]

theorem modelPeriods_ascending : strictlyAscending modelPeriods = true := by
  norm_num [strictlyAscending, modelPeriods]

/-- C1: for every decoded ServiceResponse whose status tag equals `error`,
the script does not attempt series extraction and surfaces the failure —
`extractSeries` fails with the response-shape failure and never returns a
(possibly partial) result, regardless of whether a per-row payload is also
present. -/
theorem error_status_blocks_extraction (svc : JVal)
    (h : jget svc "status" = .ok (.str "error")) :
    extractSeries svc = .error (.responseShapeError) := by
  unfold extractSeries
  rw [h, except_bind_ok]
  rfl

/-- Witness for C1: a concrete response with status tag `error` and a usable
per-row payload also present — extraction still fails, returning nothing. -/
theorem error_status_blocks_extraction_witness :
    extractSeries svcErrWithPayload = .error (.responseShapeError) :=
  error_status_blocks_extraction svcErrWithPayload rfl

/-- C3: the guard `svcResponse['status'] == 'error' and
~hasattr(svcResponse, 'response')` is equivalent to
`svcResponse['status'] == 'error'` alone: `~hasattr(...)` is the bitwise
complement of a boolean (`-1` or `-2`), hence always truthy, so for every
combination of sub-results the guard equals the status check. -/
theorem guard_equiv_status_only (s h : Bool) : guardCond s h = s := by
  cases s <;> cases h <;> rfl

/-- Witness for C3: the guard at both attribute-check outcomes with an
`error` status. -/
theorem guard_equiv_status_only_witness :
    guardCond true false = true ∧ guardCond true true = true :=
  ⟨guard_equiv_status_only true false, guard_equiv_status_only true true⟩

/-- Counterexample to C4 as stated: a concrete decoded response whose status
tag is `error` while a usable per-row payload with both sections is present —
`extractSeries` still fails with the response-shape failure although the
claim's condition (status `error` with no usable payload, or a row lacking a
section) is false there. -/
theorem shape_error_condition_refuted :
    extractSeries svcErrWithPayload = .error (.responseShapeError) ∧
    claimedShapeFailCond svcErrWithPayload = false :=
  ⟨rfl, rfl⟩

/-- C4 as amended: `extractSeries` fails with the response-shape failure
exactly when the status tag is present and equals `error`, regardless of
payload presence; every other failure (missing `response`, `means` or
`sigmas` key, wrongly-typed value) surfaces as an untyped `KeyError` or
`TypeError` instead. -/
theorem shape_error_iff_error_status (svc : JVal) :
    extractSeries svc = .error (.responseShapeError) ↔ statusIsError svc = true := by
  unfold extractSeries statusIsError
  cases h : jget svc "status" with
  | error e =>
      have hne := jget_ne_shape svc "status"
      rw [h] at hne
      rw [except_bind_error]
      simp only [Bool.false_eq_true, iff_false]
      intro he
      injection he with he2
      exact hne (he2 ▸ rfl)
  | ok st =>
      rw [except_bind_ok]
      simp only [guardCond_eq, jHasattr]
      by_cases hs : isErrorTag st
      · simp [hs]
      · simp only [hs, if_neg, Bool.false_eq_true, iff_false]
        refine except_bind_ne _ _ (jget_ne_shape svc "response") (fun x => ?_)
        refine except_bind_ne _ _ (jarr_ne_shape x) (fun rows => ?_)
        exact forRows_ne_shape rows

/-- C2: for every well-formed InputTable and non-empty model selection, the
sequence extracted from a successful (modelled) service response has exactly
one entry per input row, and the i-th entry echoes the i-th submitted row. -/
theorem successful_response_row_count (gmms : List String) (table : InputTable)
    (hg : gmms ≠ []) :
    ∃ l, extractSeries (serviceRespond gmms table) = .ok l ∧
      l.length = table.length ∧
      ∀ i : ℕ, l[i]?.map RowExtract.input = table[i]?.map rowToJson := by
  refine ⟨table.map (rowExtractOf gmms), extractSeries_serviceRespond gmms table,
    by simp, fun i => ?_⟩
  cases h : table[i]? with
  | none => simp [List.getElem?_map, h]
  | some r => simp [List.getElem?_map, h, rowExtractOf]

/-- Witness for C2: the spec's 3-row `dip` scenario with one model. -/
theorem successful_response_row_count_witness :
    ∃ l, extractSeries (serviceRespond ["AB_06_PRIME"] threeRowTable) = .ok l ∧
      l.length = threeRowTable.length ∧
      ∀ i : ℕ, l[i]?.map RowExtract.input = threeRowTable[i]?.map rowToJson :=
  successful_response_row_count ["AB_06_PRIME"] threeRowTable (by simp)

/-- Counterexample to C5 as stated: a concrete tabular source whose value row
has fewer columns than the header — `loadInputs` does not fail, it returns
the raw contents unchanged, and the outbound call is still attempted. -/
theorem malformed_source_still_posted :
    inconsistentCols badCsv = true ∧
    loadInputs badCsv = badCsv ∧
    postCount (runBatchScript badCsv (.str "usage")).1 = 1 :=
  ⟨by decide, rfl, rfl⟩

/-- C5 as amended: the script performs no client-side column-count
validation — for every tabular source, also one with a value row inconsistent
with the header, `loadInputs` returns the raw contents and the single
outbound call is attempted with those contents as the body. -/
theorem malformed_source_posted_unvalidated (s : String) (svc : JVal)
    (h : inconsistentCols s = true) :
    loadInputs s = s ∧
    (runBatchScript s svc).1
      = [Event.readFile "gmm-inputs.csv",
         Event.post url s (encodeRepeatedParam "gmm" gmmQuery)] ∧
    postCount (runBatchScript s svc).1 = 1 :=
  ⟨rfl, rfl, rfl⟩

/-- Witness for C5 (amended) at the malformed source. -/
theorem malformed_source_posted_unvalidated_witness :
    loadInputs badCsv = badCsv ∧
    (runBatchScript badCsv (.str "usage")).1
      = [Event.readFile "gmm-inputs.csv",
         Event.post url badCsv (encodeRepeatedParam "gmm" gmmQuery)] ∧
    postCount (runBatchScript badCsv (.str "usage")).1 = 1 :=
  malformed_source_posted_unvalidated badCsv (.str "usage") (by decide)

/-- C6: every SpectrumResult produced by the client — extracted from the
modelled network response, or returned by the modelled in-process spectrum
call — has periods, means and sigmas of equal length with strictly ascending
periods. -/
theorem spectrum_result_invariant :
    (∀ (gmms : List String) (table : InputTable) (l : List RowExtract),
        extractSeries (serviceRespond gmms table) = .ok l →
        ∀ e ∈ l, spectrumInvariant e) ∧
    (∀ (gmm : String) (p : GmmParams),
        (gmmSpectrum gmm p).periods.length = (gmmSpectrum gmm p).means.length ∧
        (gmmSpectrum gmm p).periods.length = (gmmSpectrum gmm p).sigmas.length ∧
        strictlyAscending (gmmSpectrum gmm p).periods = true) := by
  constructor
  · intro gmms table l hl e he
    rw [extractSeries_serviceRespond] at hl
    injection hl with hl2
    rw [← hl2] at he
    obtain ⟨r, _, rfl⟩ := List.mem_map.mp he
    exact ⟨modelPeriods, modelMeans r, modelPeriods, modelSigmas r, rfl, rfl,
      by simp [modelMeans], by simp [modelSigmas], rfl, modelPeriods_ascending⟩
  · intro gmm p
    exact ⟨by simp [gmmSpectrum], by simp [gmmSpectrum], modelPeriods_ascending⟩

/-- Witness for C6: the invariant at one concrete extracted row of a
one-row successful response. -/
theorem spectrum_result_invariant_witness :
    spectrumInvariant (rowExtractOf ["AB_06_PRIME"] sampleRow) :=
  spectrum_result_invariant.1 ["AB_06_PRIME"] [sampleRow]
    [rowExtractOf ["AB_06_PRIME"] sampleRow] rfl
    (rowExtractOf ["AB_06_PRIME"] sampleRow) (by simp)

/-- C7: every invocation of the batch script performs exactly one blocking
outbound call — one POST, no retries, no second attempt whatever the decoded
response (including every error outcome). -/
theorem single_outbound_call (contents : String) (svc : JVal) :
    postCount (runBatchScript contents svc).1 = 1 := rfl

/-- C8: `buildRequest` serializes every input table as-is into the request
body — no client-side validation or transformation — and encodes the model
identifiers as a repeated query parameter, one `gmm` occurrence per model
identifier, in order. -/
theorem request_body_as_is_repeated_params (inputs : String) (models : List String) :
    (buildRequest inputs models).1 = inputs ∧
    (buildRequest inputs models).2.map Prod.fst = List.replicate models.length "gmm" ∧
    (buildRequest inputs models).2.map Prod.snd = models := by
  refine ⟨rfl, ?_, ?_⟩ <;> simp [buildRequest, encodeRepeatedParam]

/-- C9: round-trip — encoding an input table row into request-body cells and
decoding the service's echo of it yields parameter-for-parameter equality for
every non-sentinel value (sentinels may be resolved to defaults by the
service). -/
theorem echo_preserves_params (defaults : String → ℚ) (r : InputRow) (i : ℕ)
    (n : String) (v : ℚ) (h : r.params[i]? = some (n, ParamValue.num v)) :
    (echoRow defaults r)[i]? = some (n, v) := by
  simp [echoRow, List.getElem?_map, h, serviceResolve, encodeCell]

/-- Witness for C9: the `dip` parameter of the sample row survives the
round-trip unchanged. -/
theorem echo_preserves_params_witness :
    (echoRow (fun _ => 760) sampleRow)[0]? = some ("dip", 45) :=
  echo_preserves_params (fun _ => 760) sampleRow 0 "dip" 45 rfl

theorem lastSeries_append (m : JVal) (xs ys : JVal) :
    ∀ (init : List JVal) (acc : Option (JVal × JVal)),
      (∀ x ∈ init, ∃ p, seriesOf x = .ok p) →
      seriesOf m = .ok (xs, ys) →
      lastSeries acc (init ++ [m]) = .ok (some (xs, ys))
  | [], acc, _, hm => by
      show lastSeries acc [m] = _
      unfold lastSeries
      rw [hm, except_bind_ok]
      rfl
  | a :: t, acc, hinit, hm => by
      obtain ⟨p, hp⟩ := hinit a (List.mem_cons_self a t)
      show lastSeries acc (a :: (t ++ [m])) = _
      unfold lastSeries
      rw [hp, except_bind_ok]
      exact lastSeries_append m xs ys t (some p)
        (fun x hx => hinit x (List.mem_cons_of_mem a hx)) hm

/-- C10: in the per-row extraction, when a section's `data` array holds
several series, each inner-loop iteration overwrites the previous binding, so
after the loop only the last series' `xs`/`ys` arrays are retained — every
earlier series is discarded, whatever value it held. -/
theorem inner_loop_keeps_last_series (init : List JVal) (m xs ys : JVal)
    (hinit : ∀ x ∈ init, ∃ p, seriesOf x = .ok p)
    (hm : seriesOf m = .ok (xs, ys)) :
    lastSeries none (init ++ [m]) = .ok (some (xs, ys)) :=
  lastSeries_append m xs ys init none hinit hm

/-- Witness for C10: a two-series `data` array — the loop's result is the
second series' arrays; the first series' distinct values are discarded. -/
theorem inner_loop_keeps_last_series_witness :
    lastSeries none ([modelSeriesElem [1]] ++ [modelSeriesElem [2]])
      = .ok (some (.arr (modelPeriods.map JVal.num), .arr ([(2 : ℚ)].map JVal.num))) :=
  inner_loop_keeps_last_series [modelSeriesElem [1]] (modelSeriesElem [2])
    (.arr (modelPeriods.map JVal.num)) (.arr ([(2 : ℚ)].map JVal.num))
    (by intro x hx; rw [List.mem_singleton] at hx; subst hx; exact ⟨_, rfl⟩)
    rfl
